import Mathlib

/-!
# IngomaVisaConnect backend — formal model and verification

A shallow embedding of the core services of the IngomaVisaConnect backend
(visa-application lifecycle, officer assignment, documents, document
requests, interviews, payment handlers) as pure Lean functions over an
explicit database state, together with theorems settling the spec claims.

Conventions of the embedding:
* The relational store is a record of lists, one per table, in insertion
  order; `findUnique` becomes `List.find?` on the primary key, `findFirst`
  becomes `List.find?` with the query predicate (Prisma's default order is
  table order), `update` becomes a pointwise `List.map` replacing the row
  with the matching id, `create` appends to the table.
* Timestamps (`new Date()`, `Date.now()`) are explicit `now : Nat`
  parameters in milliseconds; generated ids and application numbers are
  explicit `fresh…` parameters.
* Thrown service errors become the `ServiceError` sum returned in `Except`.
* Best-effort side effects (e-mail, console logging) are omitted: the
  source catches and discards their failures, so they never affect state.
-/

namespace IngomaVisa

/-- `Status` enum of `VisaApplication` (prisma/schema.prisma). -/
inductive Status
  | PENDING
  | SUBMITTED
  | UNDER_REVIEW
  | APPROVED
  | REJECTED
deriving DecidableEq, Repr

/-- `Role` enum of `User`. -/
inductive Role
  | APPLICANT
  | OFFICER
  | ADMIN
deriving DecidableEq, Repr

/-- `VerificationStatus` enum of `Document`. -/
inductive VerificationStatus
  | PENDING
  | VERIFIED
  | REJECTED
deriving DecidableEq, Repr

/-- `RequestForDocumentStatus` enum. -/
inductive ReqDocStatus
  | SENT
  | SUBMITTED
  | CANCELLED
deriving DecidableEq, Repr

/-- `InterviewStatus` enum. -/
inductive InterviewStatus
  | SCHEDULED
  | RESCHEDULED
  | COMPLETED
  | CANCELLED
deriving DecidableEq, Repr

/-- `PaymentStatus` enum. -/
inductive PaymentStatus
  | PENDING
  | COMPLETED
  | FAILED
  | REFUNDED
deriving DecidableEq, Repr

/-- `User` row: the fields the modelled services read. -/
structure User where
  id : String
  name : String
  email : String
  role : Role
  isActive : Bool
deriving DecidableEq, Repr

/-- `VisaType` row: the fields the modelled services read. -/
structure VisaType where
  id : String
  isActive : Bool
deriving DecidableEq, Repr

/-- `VisaApplication` row.  The 1:1 `PersonalInfo` / `TravelInfo`
satellite records are modelled by the id of the related row when it
exists (`none` models the absent relation the services test with
`!application.personalInfo`). -/
structure VisaApplication where
  id : String
  applicationNumber : String
  userId : String
  visaTypeId : String
  status : Status
  submissionDate : Option Nat
  decisionDate : Option Nat
  expiryDate : Option Nat
  rejectionReason : Option String
  officerId : Option String
  personalInfo : Option String
  travelInfo : Option String
deriving DecidableEq, Repr

/-- `Document` row. -/
structure Document where
  id : String
  applicationId : String
  documentType : String
  fileName : String
  filePath : String
  fileSize : Nat
  uploadDate : Nat
  verificationStatus : VerificationStatus
  verifiedBy : Option String
  verifiedAt : Option Nat
  rejectionReason : Option String
deriving DecidableEq, Repr

/-- `RequestForDocument` row. -/
structure RequestForDocument where
  id : String
  applicationId : String
  documentName : String
  additionalDetails : Option String
  officerId : String
  status : ReqDocStatus
  documentId : Option String
deriving DecidableEq, Repr

/-- `Interview` row. -/
structure Interview where
  id : String
  applicationId : String
  assignedOfficerId : String
  schedulerId : String
  scheduledDate : Nat
  location : String
  status : InterviewStatus
  notes : Option String
  outcome : Option String
  confirmed : Bool
  confirmedAt : Option Nat
deriving DecidableEq, Repr

/-- `Payment` row: the fields the webhook handlers read. -/
structure Payment where
  id : String
  userId : String
  applicationId : String
  stripePaymentId : Option String
  paymentStatus : PaymentStatus
deriving DecidableEq, Repr

/-- `AuditLog` row (only the fields the claims can observe). -/
structure AuditLog where
  userId : String
  action : String
deriving DecidableEq, Repr

/-- The database state: one list per table, in insertion order. -/
structure DB where
  users : List User
  visaTypes : List VisaType
  visaApplications : List VisaApplication
  documents : List Document
  requestsForDocument : List RequestForDocument
  interviews : List Interview
  payments : List Payment
  auditLogs : List AuditLog
deriving DecidableEq, Repr

/-- The service error taxonomy of `src/utils/errors.ts` (the classes the
modelled services throw). -/
inductive ServiceError
  | BadRequest (msg : String)
  | NotFound (msg : String)
  | Forbidden (msg : String)
deriving DecidableEq, Repr

/-- Decidable equality on `Except`, for evaluating the services on
concrete stores. -/
instance exceptDecEq {ε α : Type} [DecidableEq ε] [DecidableEq α] :
    DecidableEq (Except ε α) := fun a b =>
  match a, b with
  | .ok x, .ok y =>
    if h : x = y then isTrue (by rw [h]) else isFalse (by simp [h])
  | .error x, .error y =>
    if h : x = y then isTrue (by rw [h]) else isFalse (by simp [h])
  | .ok _, .error _ => isFalse (by simp)
  | .error _, .ok _ => isFalse (by simp)

/-- Append an `AuditLog` row (`logAuditEvent` in the services: the
lookup of the user only feeds the `userRole` column, which no claim
observes). -/
def DB.withAudit (db : DB) (userId action : String) : DB :=
  { db with auditLogs := db.auditLogs ++ [⟨userId, action⟩] }

/-- `prisma.visaApplication.update({where: {id}, data: …})`:
replace the row with the given id. -/
def DB.updateApp (db : DB) (id : String) (a : VisaApplication) : DB :=
  let apps := db.visaApplications.map (fun x => if x.id == id then a else x)
  { db with visaApplications := apps }

/-! ## VisaApplicationService.createApplication -/

/-- The `findFirst` query of `createApplication`: a `PENDING` application
with null `submissionDate` for this `(userId, visaTypeId)` pair. -/
def pendingUnsubmitted (userId visaTypeId : String) (a : VisaApplication) : Bool :=
  a.userId == userId && a.visaTypeId == visaTypeId &&
    a.status == Status.PENDING && a.submissionDate == none

/-- `VisaApplicationService.createApplication` (services, part_017 lines
7–83).  `freshId`/`freshNumber` stand for the generated row id and the
`VISA-<year>-<5 digits>` application number. -/
def createApplication (db : DB) (userId visaTypeId : String)
    (freshId freshNumber : String) :
    Except ServiceError (VisaApplication × DB) :=
  match db.users.find? (fun u => u.id == userId) with
  | none => .error (.NotFound "User not found")
  | some _ =>
    match db.visaTypes.find? (fun v => v.id == visaTypeId) with
    | none => .error (.NotFound "Visa type not found or inactive")
    | some visaType =>
      if !visaType.isActive then
        .error (.NotFound "Visa type not found or inactive")
      else
        match db.visaApplications.find? (pendingUnsubmitted userId visaTypeId) with
        | some existing => .ok (existing, db)
        | none =>
          let app : VisaApplication :=
            { id := freshId
              applicationNumber := freshNumber
              userId := userId
              visaTypeId := visaTypeId
              status := Status.PENDING
              submissionDate := none
              decisionDate := none
              expiryDate := none
              rejectionReason := none
              officerId := none
              personalInfo := none
              travelInfo := none }
          let db1 : DB :=
            { db with visaApplications := db.visaApplications ++ [app] }
          .ok (app, db1.withAudit userId "APPLICATION_CREATED")

/-! ## Officer assignment (VisaApplicationService.assignOfficerToApplication) -/

/-- `prisma.user.findMany({where: {role: OFFICER, isActive: true}})`,
in table order. -/
def activeOfficers (db : DB) : List User :=
  db.users.filter (fun u => u.role == Role.OFFICER && u.isActive)

/-- `prisma.visaApplication.count({where: {officerId, status: {in:
[SUBMITTED, UNDER_REVIEW]}}})`. -/
def officerWorkload (db : DB) (officerId : String) : Nat :=
  let wanted := fun (a : VisaApplication) =>
    a.officerId == some officerId &&
      (a.status == Status.SUBMITTED || a.status == Status.UNDER_REVIEW)
  (db.visaApplications.filter wanted).length

/-- Insert into a list already sorted by ascending count, before the first
strictly greater entry; equal counts keep the incumbent order.  With
`sortByCount` below this is a stable ascending sort, which is what
ECMAScript guarantees for `Array.prototype.sort` with the comparator
`(a, b) => a.applicationCount - b.applicationCount`. -/
def insertByCount (p : User × Nat) : List (User × Nat) → List (User × Nat)
  | [] => [p]
  | q :: qs => if p.2 ≤ q.2 then p :: q :: qs else q :: insertByCount p qs

/-- Stable ascending sort by the workload component. -/
def sortByCount : List (User × Nat) → List (User × Nat)
  | [] => []
  | p :: ps => insertByCount p (sortByCount ps)

/-- `VisaApplicationService.assignOfficerToApplication` (part_017 lines
339–389): fetch the active officers, count each one's workload, sort
ascending and take the first.  The whole body is wrapped in try/catch
returning `null` on any thrown store error; `storeError` models that
exceptional path. -/
def assignOfficerToApplication (db : DB) (storeError : Bool) : Option User :=
  if storeError then none
  else
    let officers := activeOfficers db
    if officers.isEmpty then none
    else
      let officerWorkloads := officers.map (fun o => (o, officerWorkload db o.id))
      ((sortByCount officerWorkloads).head?).map (fun p => p.1)

/-! ## VisaApplicationService.submitApplication -/

/-- JS `assignedOfficer?.id || null`: `undefined` becomes `null`, and so
does the empty string, which is falsy under `||`. -/
def jsIdOrNull (o : Option User) : Option String :=
  match o with
  | none => none
  | some u => if u.id == "" then none else some u.id

/-- `VisaApplicationService.submitApplication` (part_017 lines 146–223). -/
def submitApplication (db : DB) (userId applicationId : String) (now : Nat)
    (assignStoreError : Bool) : Except ServiceError (VisaApplication × DB) :=
  match db.visaApplications.find? (fun a => a.id == applicationId) with
  | none => .error (.NotFound "Application not found")
  | some app =>
    if app.userId != userId then .error (.Forbidden "Access denied")
    else if app.status != Status.PENDING then
      .error (.BadRequest "Application cannot be submitted")
    else if app.personalInfo == none || app.travelInfo == none then
      .error (.BadRequest "Personal and travel information are required")
    else
      let assignedOfficer := assignOfficerToApplication db assignStoreError
      let app1 := { app with
        status := Status.SUBMITTED
        submissionDate := some now
        officerId := jsIdOrNull assignedOfficer }
      .ok (app1, (db.updateApp applicationId app1).withAudit userId "APPLICATION_SUBMITTED")

/-! ## VisaApplicationService.updateApplicationStatus -/

/-- `VisaApplicationService.updateApplicationStatus` (part_017 lines
225–308).  The `data` row sent to Prisma is
`rejectionReason: status === REJECTED ? rejectionReason : null`; when the
optional argument is absent that value is `undefined`, and Prisma skips
an `undefined` field, leaving the column at its previous value. -/
def updateApplicationStatus (db : DB) (officerId applicationId : String)
    (status : Status) (rejectionReason : Option String) (now : Nat) :
    Except ServiceError (VisaApplication × DB) :=
  match db.users.find? (fun u => u.id == officerId) with
  | none => .error (.Forbidden "Only officers can update application status")
  | some officer =>
    if !(officer.role == Role.ADMIN || officer.role == Role.OFFICER) then
      .error (.Forbidden "Only officers can update application status")
    else
      match db.visaApplications.find? (fun a => a.id == applicationId) with
      | none => .error (.NotFound "Application not found")
      | some app =>
        if app.status == status then
          .error (.BadRequest "Application is already in this status")
        else
          let newRejectionReason : Option String :=
            if status == Status.REJECTED then
              match rejectionReason with
              | some r => some r
              | none => app.rejectionReason
            else none
          let newExpiryDate : Option Nat :=
            if status == Status.APPROVED then some (now + 90 * 24 * 60 * 60 * 1000)
            else none
          let app1 := { app with
            status := status
            decisionDate := some now
            rejectionReason := newRejectionReason
            expiryDate := newExpiryDate }
          .ok (app1, (db.updateApp applicationId app1).withAudit officerId "APPLICATION_STATUS_UPDATED")

/-! ## PaymentService.handleSuccessfulPayment -/

/-- `PaymentService.handleSuccessfulPayment` (payment service bundled in
src/services/visaApplication.service.ts, lines 373–402): mark the payment
with the intent's `stripePaymentId` COMPLETED, then unconditionally set
the application named by the intent metadata to `SUBMITTED`.
`prisma.update` on a missing unique row throws, modelled as `NotFound`. -/
def handleSuccessfulPayment (db : DB) (stripePaymentId applicationId : String) :
    Except ServiceError DB :=
  match db.payments.find? (fun p => p.stripePaymentId == some stripePaymentId) with
  | none => .error (.NotFound "Payment record not found")
  | some _ =>
    let pays := db.payments.map (fun p =>
      if p.stripePaymentId == some stripePaymentId then
        { p with paymentStatus := PaymentStatus.COMPLETED }
      else p)
    let db1 := { db with payments := pays }
    match db1.visaApplications.find? (fun a => a.id == applicationId) with
    | none => .error (.NotFound "Application record not found")
    | some app =>
      let app1 := { app with status := Status.SUBMITTED }
      .ok (db1.updateApp applicationId app1)

/-! ## DocumentService.uploadDocument -/

/-- The fixed allow-list of the 13 known document types (part_016 lines
6–20). -/
def ALLOWED_DOCUMENT_TYPES : List String :=
  ["passportCopy", "photos", "yellowFeverCertificate", "travelInsurance",
   "invitationLetter", "employmentContract", "workPermit", "admissionLetter",
   "academicTranscripts", "criminalRecord", "medicalCertificate",
   "onwardTicket", "finalDestinationVisa"]

/-- The `{documentType, fileName, filePath, fileSize}` payload shared by
`uploadDocument` and `submitDocumentForRequest`. -/
structure DocumentUploadData where
  documentType : String
  fileName : String
  filePath : String
  fileSize : Nat
deriving DecidableEq, Repr

/-- `DocumentService.uploadDocument` (part_016 lines 32–94).  The source
searches `application.documents` — the table filtered to this
application in order — with `find(doc => doc.documentType === …)`, which
equals a `find?` over the table with both conditions. -/
def uploadDocument (db : DB) (userId applicationId : String)
    (data : DocumentUploadData) (freshId : String) (now : Nat) :
    Except ServiceError (Document × DB) :=
  if !ALLOWED_DOCUMENT_TYPES.contains data.documentType then
    .error (.BadRequest "Invalid document type")
  else
    match db.visaApplications.find? (fun a => a.id == applicationId) with
    | none => .error (.NotFound "Application not found")
    | some app =>
      if app.userId != userId then .error (.Forbidden "Access denied")
      else
        match db.documents.find? (fun d =>
            d.applicationId == applicationId && d.documentType == data.documentType) with
        | some existingDocument =>
          let doc1 := { existingDocument with
            fileName := data.fileName
            filePath := data.filePath
            fileSize := data.fileSize
            verificationStatus := VerificationStatus.PENDING
            verifiedBy := none
            verifiedAt := none
            rejectionReason := none
            uploadDate := now }
          let docs := db.documents.map (fun d => if d.id == existingDocument.id then doc1 else d)
          .ok (doc1, ({ db with documents := docs }).withAudit userId "DOCUMENT_UPDATED")
        | none =>
          let doc1 : Document :=
            { id := freshId
              applicationId := applicationId
              documentType := data.documentType
              fileName := data.fileName
              filePath := data.filePath
              fileSize := data.fileSize
              uploadDate := now
              verificationStatus := VerificationStatus.PENDING
              verifiedBy := none
              verifiedAt := none
              rejectionReason := none }
          let docs := db.documents ++ [doc1]
          .ok (doc1, ({ db with documents := docs }).withAudit userId "DOCUMENT_UPLOADED")

/-! ## RequestForDocumentService.submitDocumentForRequest

The success path issues two separate store statements —
`prisma.document.create` and then `prisma.requestForDocument.update` —
followed by the audit insert, with no surrounding `$transaction`.  To
reason about what persists if execution stops between statements, the
function is split into a guard phase computing the ordered list of row
writes (no state is touched before the first write) and `applyWrites`
executing them in order; the service's observable behaviour is the full
application of the list. -/

/-- One persisted store statement of `submitDocumentForRequest`. -/
inductive DBWrite
  | createDocument (d : Document)
  | submitRequest (requestId : String) (documentId : String)
  | createAudit (userId action : String)
deriving DecidableEq, Repr

/-- Execute one store statement. -/
def applyWrite (db : DB) : DBWrite → DB
  | .createDocument d => { db with documents := db.documents ++ [d] }
  | .submitRequest requestId documentId =>
    let reqs := db.requestsForDocument.map (fun r =>
      if r.id == requestId then
        { r with status := ReqDocStatus.SUBMITTED, documentId := some documentId }
      else r)
    { db with requestsForDocument := reqs }
  | .createAudit userId action => db.withAudit userId action

/-- Execute a prefix-closed sequence of store statements in order. -/
def applyWrites (db : DB) (ws : List DBWrite) : DB := ws.foldl applyWrite db

/-- The guard phase of `RequestForDocumentService.submitDocumentForRequest`
(part_018 lines 342–453): all checks run before any write; on success the
ordered writes are the document insert, the request update and the audit
insert.  The `include: {application: …}` materialises the parent
application, which referential integrity guarantees exists; the `NotFound`
branch for a dangling `applicationId` is unreachable in a well-formed
store. -/
def submitDocumentForRequestWrites (db : DB) (userId requestId : String)
    (documentData : DocumentUploadData) (freshDocId : String) (now : Nat) :
    Except ServiceError (List DBWrite) :=
  match db.users.find? (fun u => u.id == userId) with
  | none => .error (.NotFound "User not found")
  | some _ =>
    match db.requestsForDocument.find? (fun r => r.id == requestId) with
    | none => .error (.NotFound "Document request not found")
    | some request =>
      match db.visaApplications.find? (fun a => a.id == request.applicationId) with
      | none => .error (.NotFound "Application not found")
      | some application =>
        if application.userId != userId then .error (.Forbidden "Access denied")
        else if request.status == ReqDocStatus.CANCELLED then
          .error (.BadRequest "Cannot submit document for a cancelled request")
        else if request.status == ReqDocStatus.SUBMITTED then
          .error (.BadRequest "Document has already been submitted for this request")
        else
          let doc : Document :=
            { id := freshDocId
              applicationId := request.applicationId
              documentType := documentData.documentType
              fileName := documentData.fileName
              filePath := documentData.filePath
              fileSize := documentData.fileSize
              uploadDate := now
              verificationStatus := VerificationStatus.PENDING
              verifiedBy := none
              verifiedAt := none
              rejectionReason := none }
          .ok [DBWrite.createDocument doc,
               DBWrite.submitRequest requestId doc.id,
               DBWrite.createAudit userId "DOCUMENT_SUBMITTED_FOR_REQUEST"]

/-- `RequestForDocumentService.submitDocumentForRequest`: the guard phase
followed by all of its writes. -/
def submitDocumentForRequest (db : DB) (userId requestId : String)
    (documentData : DocumentUploadData) (freshDocId : String) (now : Nat) :
    Except ServiceError DB :=
  (submitDocumentForRequestWrites db userId requestId documentData freshDocId now).map
    (applyWrites db)

/-! ## InterviewService operations -/

/-- An interview counts against the one-active-interview rule when its
status is in `{SCHEDULED, RESCHEDULED}`. -/
def interviewActive (i : Interview) : Bool :=
  i.status == InterviewStatus.SCHEDULED || i.status == InterviewStatus.RESCHEDULED

/-- `prisma.interview.update({where: {id}, data: …})`. -/
def DB.updateInterview (db : DB) (id : String) (i : Interview) : DB :=
  let ivs := db.interviews.map (fun x => if x.id == id then i else x)
  { db with interviews := ivs }

/-- `InterviewService.createInterview` (interview.service.ts lines 7–134). -/
def createInterview (db : DB) (schedulerId applicationId assignedOfficerId : String)
    (scheduledDate : Nat) (location : String) (notes : Option String)
    (freshId : String) : Except ServiceError (Interview × DB) :=
  match db.users.find? (fun u => u.id == schedulerId) with
  | none => .error (.Forbidden "Only officers and admins can schedule interviews")
  | some scheduler =>
    if !(scheduler.role == Role.ADMIN || scheduler.role == Role.OFFICER) then
      .error (.Forbidden "Only officers and admins can schedule interviews")
    else
      match db.users.find? (fun u => u.id == assignedOfficerId) with
      | none => .error (.BadRequest "Invalid assigned officer")
      | some assignedOfficer =>
        if assignedOfficer.role != Role.OFFICER then
          .error (.BadRequest "Invalid assigned officer")
        else
          match db.visaApplications.find? (fun a => a.id == applicationId) with
          | none => .error (.NotFound "Application not found")
          | some _ =>
            match db.interviews.find? (fun i =>
                i.applicationId == applicationId && interviewActive i) with
            | some _ => .error (.BadRequest "An interview is already scheduled for this application")
            | none =>
              let interview : Interview :=
                { id := freshId
                  applicationId := applicationId
                  assignedOfficerId := assignedOfficerId
                  schedulerId := schedulerId
                  scheduledDate := scheduledDate
                  location := location
                  status := InterviewStatus.SCHEDULED
                  notes := notes
                  outcome := none
                  confirmed := false
                  confirmedAt := none }
              .ok (interview, { db with interviews := db.interviews ++ [interview] })

/-- `InterviewService.rescheduleInterview` (interview.service.ts lines
358–491).  Note: no check of the current interview status — any found
interview, including a `CANCELLED` or `COMPLETED` one, is moved to
`RESCHEDULED`.  The optional fields are only written when provided
(the source tests them before adding them to `updateData`). -/
def rescheduleInterview (db : DB) (officerId interviewId : String)
    (newDate : Option Nat) (newLocation : Option String) (newNotes : Option String) :
    Except ServiceError (Interview × DB) :=
  match db.users.find? (fun u => u.id == officerId) with
  | none => .error (.Forbidden "Only officers and admins can reschedule interviews")
  | some officer =>
    if !(officer.role == Role.ADMIN || officer.role == Role.OFFICER) then
      .error (.Forbidden "Only officers and admins can reschedule interviews")
    else
      match db.interviews.find? (fun i => i.id == interviewId) with
      | none => .error (.NotFound "Interview not found")
      | some interview =>
        if interview.assignedOfficerId != officerId && interview.schedulerId != officerId then
          .error (.Forbidden "Only the assigned officer or scheduler can reschedule this interview")
        else
          let newNotesField := match newNotes with
            | some n => some n
            | none => interview.notes
          let interview1 := { interview with
            status := InterviewStatus.RESCHEDULED
            confirmed := false
            confirmedAt := none
            scheduledDate := newDate.getD interview.scheduledDate
            location := newLocation.getD interview.location
            notes := newNotesField }
          .ok (interview1, db.updateInterview interviewId interview1)

/-- `InterviewService.cancelInterview` (interview.service.ts lines
493–608). -/
def cancelInterview (db : DB) (officerId interviewId : String) :
    Except ServiceError (Interview × DB) :=
  match db.users.find? (fun u => u.id == officerId) with
  | none => .error (.Forbidden "Only officers and admins can cancel interviews")
  | some officer =>
    if !(officer.role == Role.ADMIN || officer.role == Role.OFFICER) then
      .error (.Forbidden "Only officers and admins can cancel interviews")
    else
      match db.interviews.find? (fun i => i.id == interviewId) with
      | none => .error (.NotFound "Interview not found")
      | some interview =>
        if interview.assignedOfficerId != officerId && interview.schedulerId != officerId then
          .error (.Forbidden "Only the assigned officer or scheduler can cancel this interview")
        else if interview.status == InterviewStatus.CANCELLED then
          .error (.BadRequest "Interview is already cancelled")
        else
          let interview1 := { interview with
            status := InterviewStatus.CANCELLED
            confirmed := false
            confirmedAt := none }
          .ok (interview1, db.updateInterview interviewId interview1)

/-- `InterviewService.confirmInterview` (interview.service.ts lines
610–728).  The `include` materialises the parent application; the
dangling-id branch is unreachable in a well-formed store. -/
def confirmInterview (db : DB) (applicantId interviewId : String) (now : Nat) :
    Except ServiceError (Interview × DB) :=
  match db.users.find? (fun u => u.id == applicantId) with
  | none => .error (.NotFound "User not found")
  | some _ =>
    match db.interviews.find? (fun i => i.id == interviewId) with
    | none => .error (.NotFound "Interview not found")
    | some interview =>
      match db.visaApplications.find? (fun a => a.id == interview.applicationId) with
      | none => .error (.NotFound "Application not found")
      | some application =>
        if application.userId != applicantId then .error (.Forbidden "Access denied")
        else if interview.confirmed then
          .error (.BadRequest "Interview is already confirmed")
        else if interview.status == InterviewStatus.CANCELLED then
          .error (.BadRequest "Cannot confirm a cancelled interview")
        else
          let interview1 := { interview with
            confirmed := true
            confirmedAt := some now }
          .ok (interview1, db.updateInterview interviewId interview1)

/-- `InterviewService.markInterviewCompleted` (interview.service.ts lines
730–855).  `notes` is optional in the `data` row, so an absent value
leaves the column unchanged. -/
def markInterviewCompleted (db : DB) (officerId interviewId : String)
    (outcome : String) (notes : Option String) :
    Except ServiceError (Interview × DB) :=
  match db.users.find? (fun u => u.id == officerId) with
  | none => .error (.Forbidden "Only officers and admins can mark interviews as completed")
  | some officer =>
    if !(officer.role == Role.ADMIN || officer.role == Role.OFFICER) then
      .error (.Forbidden "Only officers and admins can mark interviews as completed")
    else
      match db.interviews.find? (fun i => i.id == interviewId) with
      | none => .error (.NotFound "Interview not found")
      | some interview =>
        if interview.assignedOfficerId != officerId then
          .error (.Forbidden "Only the assigned officer can mark this interview as completed")
        else if interview.status == InterviewStatus.COMPLETED then
          .error (.BadRequest "Interview is already marked as completed")
        else if interview.status == InterviewStatus.CANCELLED then
          .error (.BadRequest "Cannot mark a cancelled interview as completed")
        else
          let newNotesField := match notes with
            | some n => some n
            | none => interview.notes
          let interview1 := { interview with
            status := InterviewStatus.COMPLETED
            outcome := some outcome
            notes := newNotesField }
          .ok (interview1, db.updateInterview interviewId interview1)

/-! ## Small projection lemmas about the state helpers -/

@[simp] theorem withAudit_users (db : DB) (u a : String) : (db.withAudit u a).users = db.users := rfl

@[simp] theorem withAudit_visaTypes (db : DB) (u a : String) : (db.withAudit u a).visaTypes = db.visaTypes := rfl

@[simp] theorem withAudit_visaApplications (db : DB) (u a : String) : (db.withAudit u a).visaApplications = db.visaApplications := rfl

@[simp] theorem withAudit_documents (db : DB) (u a : String) : (db.withAudit u a).documents = db.documents := rfl

@[simp] theorem withAudit_requests (db : DB) (u a : String) : (db.withAudit u a).requestsForDocument = db.requestsForDocument := rfl

@[simp] theorem withAudit_interviews (db : DB) (u a : String) : (db.withAudit u a).interviews = db.interviews := rfl

@[simp] theorem withAudit_payments (db : DB) (u a : String) : (db.withAudit u a).payments = db.payments := rfl

@[simp] theorem updateApp_users (db : DB) (i : String) (a : VisaApplication) : (db.updateApp i a).users = db.users := rfl

@[simp] theorem updateApp_visaTypes (db : DB) (i : String) (a : VisaApplication) : (db.updateApp i a).visaTypes = db.visaTypes := rfl

@[simp] theorem updateApp_documents (db : DB) (i : String) (a : VisaApplication) : (db.updateApp i a).documents = db.documents := rfl

@[simp] theorem updateApp_visaApplications (db : DB) (i : String) (a : VisaApplication) : (db.updateApp i a).visaApplications = db.visaApplications.map (fun x => if x.id == i then a else x) := rfl

/-! ## Claim C3: idempotent creation -/

/-- C3: for a user and an active visa type, if a `PENDING` application
with null `submissionDate` already exists for the pair, `createApplication`
returns the (first) such existing application unchanged and inserts no new
row; and two successive `createApplication` calls with no intervening
submission return the same application (in particular the same id), the
second leaving the state untouched. -/
theorem createApplication_idempotent
    (db : DB) (userId visaTypeId f1 n1 f2 n2 : String)
    (a1 : VisaApplication) (db1 : DB)
    (h1 : createApplication db userId visaTypeId f1 n1 = Except.ok (a1, db1)) :
    (∀ a, db.visaApplications.find? (pendingUnsubmitted userId visaTypeId) = some a →
        a1 = a ∧ db1 = db) ∧
    ∃ a2 db2, createApplication db1 userId visaTypeId f2 n2 = Except.ok (a2, db2) ∧
      a2 = a1 ∧ db2 = db1 := by
  unfold createApplication at h1
  split at h1
  · exact absurd h1 (by simp)
  next u hu =>
  split at h1
  · exact absurd h1 (by simp)
  next vt hv =>
  split at h1
  · exact absurd h1 (by simp)
  next hact =>
  split at h1
  next ex hex =>
    simp only [Except.ok.injEq, Prod.mk.injEq] at h1
    obtain ⟨he1, he2⟩ := h1
    constructor
    · intro a ha
      rw [hex] at ha
      cases ha
      exact ⟨he1.symm, he2.symm⟩
    · refine ⟨a1, db1, ?_, rfl, rfl⟩
      rw [← he1, ← he2]
      unfold createApplication
      simp only [hu, hv]
      rw [if_neg hact]
      simp only [hex]
  next hex =>
    simp only [Except.ok.injEq, Prod.mk.injEq] at h1
    obtain ⟨he1, he2⟩ := h1
    constructor
    · intro a ha
      rw [hex] at ha
      exact absurd ha (by simp)
    · refine ⟨a1, db1, ?_, rfl, rfl⟩
      rw [← he1, ← he2]
      unfold createApplication
      simp only [withAudit_users, withAudit_visaTypes, withAudit_visaApplications]
      simp only [hu, hv]
      rw [if_neg hact]
      rw [List.find?_append, hex]
      simp [pendingUnsubmitted]

/-- Shared fixture: an applicant. -/
def userAlice : User :=
  { id := "ua", name := "Alice", email := "alice@x", role := Role.APPLICANT, isActive := true }

/-- Shared fixture: an active visa type. -/
def visaT : VisaType := { id := "vt", isActive := true }

/-- Shared fixture: an empty store with Alice and one active visa type. -/
def c3db : DB :=
  { users := [userAlice], visaTypes := [visaT], visaApplications := [], documents := [],
    requestsForDocument := [], interviews := [], payments := [], auditLogs := [] }

/-- The row the first `createApplication` call on `c3db` inserts. -/
def c3app : VisaApplication :=
  { id := "ap1", applicationNumber := "VISA-2025-11111", userId := "ua", visaTypeId := "vt",
    status := Status.PENDING, submissionDate := none, decisionDate := none, expiryDate := none,
    rejectionReason := none, officerId := none, personalInfo := none, travelInfo := none }

/-- The store after the first `createApplication` call on `c3db`. -/
def c3db1 : DB :=
  { c3db with visaApplications := [c3app], auditLogs := [⟨"ua", "APPLICATION_CREATED"⟩] }

/-- Witness for C3: the idempotence theorem applied at a concrete store. -/
theorem createApplication_idempotent_witness :
    (∀ a, c3db.visaApplications.find? (pendingUnsubmitted "ua" "vt") = some a →
        c3app = a ∧ c3db1 = c3db) ∧
    ∃ a2 db2, createApplication c3db1 "ua" "vt" "ap2" "VISA-2025-22222" = Except.ok (a2, db2) ∧
      a2 = c3app ∧ db2 = c3db1 :=
  createApplication_idempotent c3db "ua" "vt" "ap1" "VISA-2025-11111" "ap2" "VISA-2025-22222"
    c3app c3db1 (by decide)

/-! ## Claim C1: submission gate and workload-minimising assignment -/

theorem insertByCount_ne_nil (p : User × Nat) (l : List (User × Nat)) :
    insertByCount p l ≠ [] := by
  cases l with
  | nil => simp [insertByCount]
  | cons q qs =>
    simp only [insertByCount]
    split <;> simp

theorem sortByCount_eq_nil_iff (l : List (User × Nat)) : sortByCount l = [] ↔ l = [] := by
  cases l with
  | nil => simp [sortByCount]
  | cons p ps => simp [sortByCount, insertByCount_ne_nil]

/-- The head of the stable ascending sort has a count that is a lower
bound for every count in the list. -/
theorem sortByCount_head_min :
    ∀ (l : List (User × Nat)) (p : User × Nat),
      (sortByCount l).head? = some p → ∀ q ∈ l, p.2 ≤ q.2 := by
  intro l
  induction l with
  | nil => intro p hp q hq; simp [sortByCount] at hp
  | cons x xs ih =>
    intro p hp q hq
    rw [show sortByCount (x :: xs) = insertByCount x (sortByCount xs) from rfl] at hp
    cases hs : sortByCount xs with
    | nil =>
      rw [hs] at hp
      simp only [insertByCount, List.head?_cons, Option.some.injEq] at hp
      subst hp
      have hxs : xs = [] := (sortByCount_eq_nil_iff xs).mp hs
      subst hxs
      cases hq with
      | head => exact Nat.le_refl _
      | tail _ h2 => cases h2
    | cons h t =>
      rw [hs] at hp
      simp only [insertByCount] at hp
      by_cases hle : x.2 ≤ h.2
      · rw [if_pos hle] at hp
        simp only [List.head?_cons, Option.some.injEq] at hp
        subst hp
        cases hq with
        | head => exact Nat.le_refl _
        | tail _ hq2 =>
          have hmin := ih h (by rw [hs]; rfl) q hq2
          exact Nat.le_trans hle hmin
      · rw [if_neg hle] at hp
        simp only [List.head?_cons, Option.some.injEq] at hp
        subst hp
        cases hq with
        | head => exact Nat.le_of_lt (Nat.lt_of_not_le hle)
        | tail _ hq2 => exact ih h (by rw [hs]; rfl) q hq2

/-- The head of the stable ascending sort is the first element of the
original list attaining the minimum count: everything before it in the
original order has a strictly larger count. -/
theorem sortByCount_head_first :
    ∀ (l : List (User × Nat)) (p : User × Nat),
      (sortByCount l).head? = some p →
      ∃ l₁ l₂, l = l₁ ++ p :: l₂ ∧ ∀ q ∈ l₁, p.2 < q.2 := by
  intro l
  induction l with
  | nil => intro p hp; simp [sortByCount] at hp
  | cons x xs ih =>
    intro p hp
    rw [show sortByCount (x :: xs) = insertByCount x (sortByCount xs) from rfl] at hp
    cases hs : sortByCount xs with
    | nil =>
      rw [hs] at hp
      simp only [insertByCount, List.head?_cons, Option.some.injEq] at hp
      subst hp
      exact ⟨[], xs, rfl, by intro q hq; cases hq⟩
    | cons h t =>
      rw [hs] at hp
      simp only [insertByCount] at hp
      by_cases hle : x.2 ≤ h.2
      · rw [if_pos hle] at hp
        simp only [List.head?_cons, Option.some.injEq] at hp
        subst hp
        exact ⟨[], xs, rfl, by intro q hq; cases hq⟩
      · rw [if_neg hle] at hp
        simp only [List.head?_cons, Option.some.injEq] at hp
        subst hp
        obtain ⟨m₁, m₂, hxs, hm⟩ := ih h (by rw [hs]; rfl)
        refine ⟨x :: m₁, m₂, by simp [hxs], ?_⟩
        intro q hq
        cases hq with
        | head => exact Nat.lt_of_not_le hle
        | tail _ hq2 => exact hm q hq2

/-- Characterisation of the assignment algorithm when at least one active
officer exists: it returns the first active officer (in enumeration
order) whose workload is the global minimum over all active officers. -/
theorem assignOfficer_spec (db : DB) (hne : activeOfficers db ≠ []) :
    ∃ os₁ os₂ o, activeOfficers db = os₁ ++ o :: os₂ ∧
      assignOfficerToApplication db false = some o ∧
      (∀ q ∈ activeOfficers db, officerWorkload db o.id ≤ officerWorkload db q.id) ∧
      (∀ q ∈ os₁, officerWorkload db o.id < officerWorkload db q.id) := by
  have hwl : (activeOfficers db).map (fun o => (o, officerWorkload db o.id)) ≠ [] := by
    simpa using hne
  cases hsort : sortByCount ((activeOfficers db).map (fun o => (o, officerWorkload db o.id))) with
  | nil => exact absurd ((sortByCount_eq_nil_iff _).mp hsort) hwl
  | cons p t =>
    have hhead : (sortByCount ((activeOfficers db).map (fun o => (o, officerWorkload db o.id)))).head? = some p := by
      rw [hsort]; rfl
    obtain ⟨m₁, m₂, hdecomp, hfirst⟩ := sortByCount_head_first _ p hhead
    have hmin := sortByCount_head_min _ p hhead
    obtain ⟨os₁, rest, hos, hm₁, hrest⟩ := List.map_eq_append_iff.mp hdecomp
    obtain ⟨o, os₂, hrest2, hpo, hm₂⟩ := List.map_eq_cons_iff.mp hrest
    refine ⟨os₁, os₂, o, by rw [hos, hrest2], ?_, ?_, ?_⟩
    · unfold assignOfficerToApplication
      rw [if_neg (by simp)]
      rw [if_neg (by simp [List.isEmpty_eq_false, hne])]
      simp only [hhead, ← hpo]
      rfl
    · intro q hq
      have : (q, officerWorkload db q.id) ∈ (activeOfficers db).map (fun o => (o, officerWorkload db o.id)) :=
        List.mem_map_of_mem _ hq
      have h2 := hmin _ this
      rw [← hpo] at h2
      exact h2
    · intro q hq
      have : (q, officerWorkload db q.id) ∈ m₁ := by
        rw [← hm₁]
        exact List.mem_map_of_mem _ hq
      have h2 := hfirst _ this
      rw [← hpo] at h2
      exact h2

/-- C1: for an application owned by the caller and in status `PENDING`,
`submitApplication` fails with `BadRequest` when the `PersonalInfo` or
`TravelInfo` record is absent; when both are present it succeeds, sets
the status to `SUBMITTED`, and assigns as officer the first active
officer in enumeration order whose count of `SUBMITTED`/`UNDER_REVIEW`
applications is the global minimum over all active officers. -/
theorem submitApplication_gate_and_assignment
    (db : DB) (userId applicationId : String) (now : Nat) (app : VisaApplication)
    (hfind : db.visaApplications.find? (fun a => a.id == applicationId) = some app)
    (howner : app.userId = userId)
    (hpending : app.status = Status.PENDING)
    (hids : ∀ u ∈ db.users, u.id ≠ "") :
    ((app.personalInfo = none ∨ app.travelInfo = none) →
      submitApplication db userId applicationId now false =
        Except.error (ServiceError.BadRequest "Personal and travel information are required")) ∧
    (app.personalInfo ≠ none → app.travelInfo ≠ none →
      ∃ app1, submitApplication db userId applicationId now false =
          Except.ok (app1, (db.updateApp applicationId app1).withAudit userId "APPLICATION_SUBMITTED") ∧
        app1.status = Status.SUBMITTED ∧
        app1.submissionDate = some now ∧
        (activeOfficers db ≠ [] →
          ∃ os₁ os₂ o, activeOfficers db = os₁ ++ o :: os₂ ∧
            app1.officerId = some o.id ∧
            (∀ q ∈ activeOfficers db, officerWorkload db o.id ≤ officerWorkload db q.id) ∧
            (∀ q ∈ os₁, officerWorkload db o.id < officerWorkload db q.id))) := by
  constructor
  · intro hmiss
    unfold submitApplication
    simp only [hfind]
    rw [if_neg (by simp [howner])]
    rw [if_neg (by simp [hpending])]
    rw [if_pos (by rcases hmiss with h | h <;> simp [h])]
  · intro hpi hti
    unfold submitApplication
    simp only [hfind]
    rw [if_neg (by simp [howner])]
    rw [if_neg (by simp [hpending])]
    rw [if_neg (by simp [hpi, hti])]
    refine ⟨{ app with
        status := Status.SUBMITTED
        submissionDate := some now
        officerId := jsIdOrNull (assignOfficerToApplication db false) }, rfl, rfl, rfl, ?_⟩
    intro hne
    obtain ⟨os₁, os₂, o, hdecomp, hassign, hminAll, hfirstAll⟩ := assignOfficer_spec db hne
    refine ⟨os₁, os₂, o, hdecomp, ?_, hminAll, hfirstAll⟩
    have homem : o ∈ activeOfficers db := by
      rw [hdecomp]
      exact List.mem_append_right _ (List.mem_cons_self o os₂)
    have houser : o ∈ db.users := (List.mem_filter.mp homem).1
    have hido : o.id ≠ "" := hids o houser
    show jsIdOrNull (assignOfficerToApplication db false) = some o.id
    simp [jsIdOrNull, hassign, hido]

/-- Shared fixture: an active officer with one open assignment in `c1db`. -/
def officerOmar : User :=
  { id := "uo1", name := "Omar", email := "o1@x", role := Role.OFFICER, isActive := true }

/-- Shared fixture: an active officer with no open assignment in `c1db`. -/
def officerPia : User :=
  { id := "uo2", name := "Pia", email := "o2@x", role := Role.OFFICER, isActive := true }

/-- Fixture: a submitted application assigned to Omar (workload 1). -/
def c1appOld : VisaApplication :=
  { id := "apold", applicationNumber := "VISA-2025-00001", userId := "ua", visaTypeId := "vt",
    status := Status.SUBMITTED, submissionDate := some 5, decisionDate := none,
    expiryDate := none, rejectionReason := none, officerId := some "uo1",
    personalInfo := some "pi0", travelInfo := some "ti0" }

/-- Fixture: a complete `PENDING` application ready for submission. -/
def c1app : VisaApplication :=
  { id := "apc1", applicationNumber := "VISA-2025-00002", userId := "ua", visaTypeId := "vt",
    status := Status.PENDING, submissionDate := none, decisionDate := none,
    expiryDate := none, rejectionReason := none, officerId := none,
    personalInfo := some "pi1", travelInfo := some "ti1" }

/-- Fixture: store with two active officers of workloads 1 and 0. -/
def c1db : DB :=
  { users := [userAlice, officerOmar, officerPia], visaTypes := [visaT],
    visaApplications := [c1appOld, c1app], documents := [],
    requestsForDocument := [], interviews := [], payments := [], auditLogs := [] }

/-- Witness for C1: the gate-and-assignment theorem applied at `c1db`. -/
theorem submitApplication_gate_and_assignment_witness :
    ((c1app.personalInfo = none ∨ c1app.travelInfo = none) →
      submitApplication c1db "ua" "apc1" 777 false =
        Except.error (ServiceError.BadRequest "Personal and travel information are required")) ∧
    (c1app.personalInfo ≠ none → c1app.travelInfo ≠ none →
      ∃ app1, submitApplication c1db "ua" "apc1" 777 false =
          Except.ok (app1, (c1db.updateApp "apc1" app1).withAudit "ua" "APPLICATION_SUBMITTED") ∧
        app1.status = Status.SUBMITTED ∧
        app1.submissionDate = some 777 ∧
        (activeOfficers c1db ≠ [] →
          ∃ os₁ os₂ o, activeOfficers c1db = os₁ ++ o :: os₂ ∧
            app1.officerId = some o.id ∧
            (∀ q ∈ activeOfficers c1db, officerWorkload c1db o.id ≤ officerWorkload c1db q.id) ∧
            (∀ q ∈ os₁, officerWorkload c1db o.id < officerWorkload c1db q.id))) :=
  submitApplication_gate_and_assignment c1db "ua" "apc1" 777 c1app
    (by decide) (by decide) (by decide) (by decide)

/-! ## Claim C7: officer assignment is best-effort, never blocking -/

/-- C7: when the other submission preconditions hold, the submission
succeeds with a null `officerId` both when no active officer exists and
when the assignment computation itself fails (the caught store error),
in both cases still setting `SUBMITTED`. -/
theorem submitApplication_bestEffort_assignment
    (db : DB) (userId applicationId : String) (now : Nat) (app : VisaApplication)
    (hfind : db.visaApplications.find? (fun a => a.id == applicationId) = some app)
    (howner : app.userId = userId)
    (hpending : app.status = Status.PENDING)
    (hpi : app.personalInfo ≠ none) (hti : app.travelInfo ≠ none) :
    (activeOfficers db = [] →
      ∃ app1, submitApplication db userId applicationId now false =
          Except.ok (app1, (db.updateApp applicationId app1).withAudit userId "APPLICATION_SUBMITTED") ∧
        app1.status = Status.SUBMITTED ∧ app1.officerId = none) ∧
    (∃ app1, submitApplication db userId applicationId now true =
        Except.ok (app1, (db.updateApp applicationId app1).withAudit userId "APPLICATION_SUBMITTED") ∧
      app1.status = Status.SUBMITTED ∧ app1.officerId = none) := by
  constructor
  · intro hempty
    unfold submitApplication
    simp only [hfind]
    rw [if_neg (by simp [howner])]
    rw [if_neg (by simp [hpending])]
    rw [if_neg (by simp [hpi, hti])]
    refine ⟨{ app with
        status := Status.SUBMITTED
        submissionDate := some now
        officerId := jsIdOrNull (assignOfficerToApplication db false) }, rfl, rfl, ?_⟩
    show jsIdOrNull (assignOfficerToApplication db false) = none
    unfold assignOfficerToApplication
    rw [if_neg (by simp)]
    rw [if_pos (by simp [hempty])]
    rfl
  · unfold submitApplication
    simp only [hfind]
    rw [if_neg (by simp [howner])]
    rw [if_neg (by simp [hpending])]
    rw [if_neg (by simp [hpi, hti])]
    exact ⟨{ app with
        status := Status.SUBMITTED
        submissionDate := some now
        officerId := jsIdOrNull (assignOfficerToApplication db true) }, rfl, rfl, rfl⟩

/-- Fixture: `c3db` plus one complete `PENDING` application and no
officers at all. -/
def c7db : DB := { c3db with visaApplications := [c1app] }

/-- Witness for C7: the best-effort theorem applied at `c7db`, a store
with no officers. -/
theorem submitApplication_bestEffort_assignment_witness :
    (activeOfficers c7db = [] →
      ∃ app1, submitApplication c7db "ua" "apc1" 9 false =
          Except.ok (app1, (c7db.updateApp "apc1" app1).withAudit "ua" "APPLICATION_SUBMITTED") ∧
        app1.status = Status.SUBMITTED ∧ app1.officerId = none) ∧
    (∃ app1, submitApplication c7db "ua" "apc1" 9 true =
        Except.ok (app1, (c7db.updateApp "apc1" app1).withAudit "ua" "APPLICATION_SUBMITTED") ∧
      app1.status = Status.SUBMITTED ∧ app1.officerId = none) :=
  submitApplication_bestEffort_assignment c7db "ua" "apc1" 9 c1app
    (by decide) (by decide) (by decide) (by decide) (by decide)

/-! ## Claim C2: decision transitions -/

/-- The decided row `updateApplicationStatus` writes on success. -/
def decidedApp (app : VisaApplication) (status : Status) (rr : Option String) (now : Nat) :
    VisaApplication :=
  { app with
    status := status
    decisionDate := some now
    rejectionReason :=
      if status == Status.REJECTED then
        match rr with
        | some r => some r
        | none => app.rejectionReason
      else none
    expiryDate :=
      if status == Status.APPROVED then some (now + 90 * 24 * 60 * 60 * 1000)
      else none }

/-- Success shape of `updateApplicationStatus`: with a valid officer, a
found application and a differing target status, it returns the decided
row and writes it back. -/
theorem updateApplicationStatus_ok
    (db : DB) (officerId applicationId : String) (status : Status) (rr : Option String) (now : Nat)
    (officer : User) (app : VisaApplication)
    (hoff : db.users.find? (fun u => u.id == officerId) = some officer)
    (hrole : officer.role = Role.ADMIN ∨ officer.role = Role.OFFICER)
    (happ : db.visaApplications.find? (fun a => a.id == applicationId) = some app)
    (hne : app.status ≠ status) :
    updateApplicationStatus db officerId applicationId status rr now =
      Except.ok (decidedApp app status rr now,
        (db.updateApp applicationId (decidedApp app status rr now)).withAudit officerId
          "APPLICATION_STATUS_UPDATED") := by
  unfold updateApplicationStatus
  simp only [hoff, happ]
  rw [if_neg (by rcases hrole with h | h <;> simp [h])]
  rw [if_neg (by simp [hne])]
  rfl

/-- Fixture: an admin user. -/
def adminAda : User :=
  { id := "uad", name := "Ada", email := "ada@x", role := Role.ADMIN, isActive := true }

/-- Fixture: a submitted application with no rejection reason on file. -/
def c2app : VisaApplication :=
  { id := "apc2", applicationNumber := "VISA-2025-00003", userId := "ua", visaTypeId := "vt",
    status := Status.SUBMITTED, submissionDate := some 5, decisionDate := none,
    expiryDate := none, rejectionReason := none, officerId := none,
    personalInfo := some "pi", travelInfo := some "ti" }

/-- Fixture: store for the decision-transition claims. -/
def c2db : DB :=
  { users := [userAlice, adminAda], visaTypes := [visaT], visaApplications := [c2app],
    documents := [], requestsForDocument := [], interviews := [], payments := [],
    auditLogs := [] }

/-- C2 counterexample: an admin moves a `SUBMITTED` application to
`REJECTED` without supplying the optional rejection reason; the call
succeeds and the persisted `rejectionReason` is null, contradicting
“transitioning to REJECTED persists a non-null rejectionReason”. -/
theorem updateStatus_rejected_with_null_reason :
    ((updateApplicationStatus c2db "uad" "apc2" Status.REJECTED none 50).toOption.map
      (fun r => (r.1.status, r.1.rejectionReason, r.1.expiryDate))) =
      some (Status.REJECTED, none, none) := by decide

/-- C2 (amended): a same-status target always fails with `BadRequest`;
a differing target succeeds and sets `decisionDate`; `REJECTED` clears
`expiryDate` and stores the rejection reason only when one is supplied,
keeping the previous value (possibly null) otherwise; `APPROVED` sets
`expiryDate` to exactly 90 days (in milliseconds) after the call time
and clears `rejectionReason`; any other target clears both. -/
theorem updateApplicationStatus_amended
    (db : DB) (officerId applicationId : String) (status : Status) (rr : Option String) (now : Nat)
    (officer : User) (app : VisaApplication)
    (hoff : db.users.find? (fun u => u.id == officerId) = some officer)
    (hrole : officer.role = Role.ADMIN ∨ officer.role = Role.OFFICER)
    (happ : db.visaApplications.find? (fun a => a.id == applicationId) = some app) :
    (status = app.status →
      updateApplicationStatus db officerId applicationId status rr now =
        Except.error (ServiceError.BadRequest "Application is already in this status")) ∧
    (status ≠ app.status →
      ∃ app1, updateApplicationStatus db officerId applicationId status rr now =
          Except.ok (app1,
            (db.updateApp applicationId app1).withAudit officerId "APPLICATION_STATUS_UPDATED") ∧
        app1.status = status ∧
        app1.decisionDate = some now ∧
        app1.submissionDate = app.submissionDate ∧
        (status = Status.REJECTED →
          app1.expiryDate = none ∧
          app1.rejectionReason = (match rr with | some r => some r | none => app.rejectionReason)) ∧
        (status = Status.APPROVED →
          app1.expiryDate = some (now + 90 * 24 * 60 * 60 * 1000) ∧
          app1.rejectionReason = none) ∧
        (status ≠ Status.REJECTED → status ≠ Status.APPROVED →
          app1.expiryDate = none ∧ app1.rejectionReason = none)) := by
  constructor
  · intro heq
    unfold updateApplicationStatus
    simp only [hoff, happ]
    rw [if_neg (by rcases hrole with h | h <;> simp [h])]
    rw [if_pos (by simp [heq])]
  · intro hne
    refine ⟨decidedApp app status rr now,
      updateApplicationStatus_ok db officerId applicationId status rr now officer app
        hoff hrole happ (fun h => hne h.symm), rfl, rfl, rfl, ?_, ?_, ?_⟩
    · intro h
      subst h
      exact ⟨rfl, rfl⟩
    · intro h
      subst h
      exact ⟨rfl, rfl⟩
    · intro h1 h2
      constructor
      · show (if status == Status.APPROVED then some (now + 90 * 24 * 60 * 60 * 1000) else none) = none
        rw [if_neg (by simp [h2])]
      · show (if status == Status.REJECTED then _ else none) = none
        rw [if_neg (by simp [h1])]

/-- Witness for C2 (amended): approval of the fixture application. -/
theorem updateApplicationStatus_amended_witness :
    (Status.APPROVED = c2app.status →
      updateApplicationStatus c2db "uad" "apc2" Status.APPROVED none 100 =
        Except.error (ServiceError.BadRequest "Application is already in this status")) ∧
    (Status.APPROVED ≠ c2app.status →
      ∃ app1, updateApplicationStatus c2db "uad" "apc2" Status.APPROVED none 100 =
          Except.ok (app1,
            (c2db.updateApp "apc2" app1).withAudit "uad" "APPLICATION_STATUS_UPDATED") ∧
        app1.status = Status.APPROVED ∧
        app1.decisionDate = some 100 ∧
        app1.submissionDate = c2app.submissionDate ∧
        (Status.APPROVED = Status.REJECTED →
          app1.expiryDate = none ∧
          app1.rejectionReason = (match (none : Option String) with | some r => some r | none => c2app.rejectionReason)) ∧
        (Status.APPROVED = Status.APPROVED →
          app1.expiryDate = some (100 + 90 * 24 * 60 * 60 * 1000) ∧
          app1.rejectionReason = none) ∧
        (Status.APPROVED ≠ Status.REJECTED → Status.APPROVED ≠ Status.APPROVED →
          app1.expiryDate = none ∧ app1.rejectionReason = none)) :=
  updateApplicationStatus_amended c2db "uad" "apc2" Status.APPROVED none 100 adminAda c2app
    (by decide) (by decide) (by decide)

/-! ## Claim C5: terminal statuses -/

/-- Searching a list in which every matching element was replaced by a
matching element `b` finds `b`, provided some element matched. -/
theorem find?_map_replace {α : Type} (p : α → Bool) (b : α) (hb : p b = true) :
    ∀ (l : List α), l.find? p ≠ none →
      (l.map (fun x => if p x then b else x)).find? p = some b := by
  intro l
  induction l with
  | nil => simp
  | cons x t ih =>
    intro hne
    by_cases hx : p x = true
    · simp only [List.map_cons]
      rw [if_pos hx]
      exact List.find?_cons_of_pos _ hb
    · simp only [List.map_cons]
      rw [if_neg hx]
      rw [List.find?_cons_of_neg _ (by simp [hx])]
      apply ih
      rw [List.find?_cons_of_neg _ (by simp [hx])] at hne
      exact hne

/-- Fixture: an approved application with a payment intent attached. -/
def c5app : VisaApplication :=
  { id := "apc5", applicationNumber := "VISA-2025-00005", userId := "ua", visaTypeId := "vt",
    status := Status.APPROVED, submissionDate := some 5, decisionDate := some 6,
    expiryDate := some 100, rejectionReason := none, officerId := none,
    personalInfo := some "pi", travelInfo := some "ti" }

/-- Fixture: the pending payment on `c5app`. -/
def c5pay : Payment :=
  { id := "pay5", userId := "ua", applicationId := "apc5",
    stripePaymentId := some "pi_5", paymentStatus := PaymentStatus.PENDING }

/-- Fixture: store for the terminal-status claims. -/
def c5db : DB :=
  { users := [userAlice, adminAda], visaTypes := [visaT], visaApplications := [c5app],
    documents := [], requestsForDocument := [], interviews := [], payments := [c5pay],
    auditLogs := [] }

/-- C5 counterexample: on an `APPROVED` application,
`updateApplicationStatus` to `PENDING` succeeds (leaving the terminal
status), and the payment-success handler moves the application back to
`SUBMITTED`. -/
theorem terminal_status_escapable :
    ((updateApplicationStatus c5db "uad" "apc5" Status.PENDING none 50).toOption.map
      (fun r => r.1.status) = some Status.PENDING) ∧
    ((handleSuccessfulPayment c5db "pi_5" "apc5").toOption.map
      (fun db2 => (db2.visaApplications.find? (fun a => a.id == "apc5")).map
        (fun a => a.status)) = some (some Status.SUBMITTED)) := by decide

/-- C5 (amended): no terminal-state guard exists.  For an application in
`APPROVED` or `REJECTED`, `updateApplicationStatus` succeeds for every
differing target status, moving the application out of the terminal
status, and the payment-success handler unconditionally resets the
application to `SUBMITTED`. -/
theorem no_terminal_guard
    (db : DB) (officerId applicationId sid : String) (target : Status) (rr : Option String)
    (now : Nat) (officer : User) (app : VisaApplication) (pay : Payment)
    (hoff : db.users.find? (fun u => u.id == officerId) = some officer)
    (hrole : officer.role = Role.ADMIN ∨ officer.role = Role.OFFICER)
    (happ : db.visaApplications.find? (fun a => a.id == applicationId) = some app)
    (_hterm : app.status = Status.APPROVED ∨ app.status = Status.REJECTED)
    (hne : target ≠ app.status)
    (hpay : db.payments.find? (fun p => p.stripePaymentId == some sid) = some pay) :
    (∃ app1 db1, updateApplicationStatus db officerId applicationId target rr now =
        Except.ok (app1, db1) ∧ app1.status = target) ∧
    (∃ db2, handleSuccessfulPayment db sid applicationId = Except.ok db2 ∧
      db2.visaApplications.find? (fun a => a.id == applicationId) =
        some { app with status := Status.SUBMITTED }) := by
  constructor
  · exact ⟨decidedApp app target rr now, _,
      updateApplicationStatus_ok db officerId applicationId target rr now officer app
        hoff hrole happ (fun h => hne h.symm), rfl⟩
  · unfold handleSuccessfulPayment
    simp only [hpay]
    have happ2 : (({ db with payments := db.payments.map (fun p =>
        if p.stripePaymentId == some sid then { p with paymentStatus := PaymentStatus.COMPLETED }
        else p) } : DB)).visaApplications.find? (fun a => a.id == applicationId) = some app := happ
    simp only [happ2]
    refine ⟨_, rfl, ?_⟩
    show (DB.updateApp _ applicationId _).visaApplications.find? _ = _
    unfold DB.updateApp
    have hid0 := List.find?_some happ
    have hid : (fun (a : VisaApplication) => a.id == applicationId)
        ({ app with status := Status.SUBMITTED }) = true := hid0
    exact find?_map_replace (fun a => a.id == applicationId)
      ({ app with status := Status.SUBMITTED }) hid db.visaApplications
      (by rw [happ]; simp)

/-- Witness for C5 (amended): the theorem applied at the fixture store,
moving the approved application to `UNDER_REVIEW`. -/
theorem no_terminal_guard_witness :
    (∃ app1 db1, updateApplicationStatus c5db "uad" "apc5" Status.UNDER_REVIEW none 60 =
        Except.ok (app1, db1) ∧ app1.status = Status.UNDER_REVIEW) ∧
    (∃ db2, handleSuccessfulPayment c5db "pi_5" "apc5" = Except.ok db2 ∧
      db2.visaApplications.find? (fun a => a.id == "apc5") =
        some { c5app with status := Status.SUBMITTED }) :=
  no_terminal_guard c5db "uad" "apc5" "pi_5" Status.UNDER_REVIEW none 60 adminAda c5app c5pay
    (by decide) (by decide) (by decide) (by decide) (by decide) (by decide)

/-! ## Claim C9: the lifecycle of submissionDate -/

theorem pendingUnsubmitted_submissionDate {u v : String} {a : VisaApplication}
    (h : pendingUnsubmitted u v a = true) : a.submissionDate = none := by
  unfold pendingUnsubmitted at h
  simp only [Bool.and_eq_true, beq_iff_eq] at h
  exact h.2

/-- Fixture: store with Alice, an admin, and one complete `PENDING`
application. -/
def c9db : DB :=
  { users := [userAlice, adminAda], visaTypes := [visaT], visaApplications := [c1app],
    documents := [], requestsForDocument := [], interviews := [], payments := [],
    auditLogs := [] }

/-- C9 counterexample: submit (submissionDate := 1000), officer resets the
status to `PENDING` via `updateApplicationStatus` (submissionDate kept),
then a second submit succeeds and overwrites submissionDate with 2000 —
it is not set exactly once. -/
theorem submissionDate_not_write_once :
    ((submitApplication c9db "ua" "apc1" 1000 false).toOption.bind (fun r1 =>
      (updateApplicationStatus r1.2 "uad" "apc1" Status.PENDING none 1500).toOption.bind (fun r2 =>
        (submitApplication r2.2 "ua" "apc1" 2000 false).toOption.map (fun r3 =>
          (r1.1.submissionDate, r2.1.submissionDate, r3.1.submissionDate))))) =
      some (some 1000, some 1000, some 2000) := by decide

/-- C9 (amended): `submissionDate` is null at creation and only ever
written by `submitApplication`, which requires status `PENDING` and sets
it to the call time; a submit on a non-`PENDING` owned application fails;
`updateApplicationStatus` and the payment-success handler never change
it.  But since `updateApplicationStatus` can reset the status to
`PENDING`, a later submit can overwrite it: it is not write-once. -/
theorem submissionDate_lifecycle (db : DB) :
    (∀ userId visaTypeId f n a1 db1,
      createApplication db userId visaTypeId f n = Except.ok (a1, db1) →
        a1.submissionDate = none) ∧
    (∀ userId applicationId now e a1 db1,
      submitApplication db userId applicationId now e = Except.ok (a1, db1) →
        a1.submissionDate = some now ∧
        ∃ app, db.visaApplications.find? (fun a => a.id == applicationId) = some app ∧
          app.status = Status.PENDING) ∧
    (∀ userId applicationId now e app,
      db.visaApplications.find? (fun a => a.id == applicationId) = some app →
      app.userId = userId →
      app.status ≠ Status.PENDING →
      submitApplication db userId applicationId now e =
        Except.error (ServiceError.BadRequest "Application cannot be submitted")) ∧
    (∀ officerId applicationId st rr now a1 db1,
      updateApplicationStatus db officerId applicationId st rr now = Except.ok (a1, db1) →
        ∃ app, db.visaApplications.find? (fun a => a.id == applicationId) = some app ∧
          a1.submissionDate = app.submissionDate) ∧
    (∀ sid applicationId db2,
      handleSuccessfulPayment db sid applicationId = Except.ok db2 →
        ∃ app, db.visaApplications.find? (fun a => a.id == applicationId) = some app ∧
          db2.visaApplications.find? (fun a => a.id == applicationId) =
            some { app with status := Status.SUBMITTED } ∧
          ({ app with status := Status.SUBMITTED } : VisaApplication).submissionDate =
            app.submissionDate) := by
  refine ⟨?create, ?submit, ?resubmit, ?update, ?pay⟩
  case create =>
    intro userId visaTypeId f n a1 db1 h
    unfold createApplication at h
    split at h
    · exact absurd h (by simp)
    split at h
    · exact absurd h (by simp)
    split at h
    · exact absurd h (by simp)
    split at h
    next ex hex =>
      simp only [Except.ok.injEq, Prod.mk.injEq] at h
      obtain ⟨h1, h2⟩ := h
      rw [← h1]
      exact pendingUnsubmitted_submissionDate (List.find?_some hex)
    next hex =>
      simp only [Except.ok.injEq, Prod.mk.injEq] at h
      obtain ⟨h1, h2⟩ := h
      rw [← h1]
  case submit =>
    intro userId applicationId now e a1 db1 h
    unfold submitApplication at h
    split at h
    · exact absurd h (by simp)
    next app happ =>
    split at h
    · exact absurd h (by simp)
    next hown =>
    split at h
    · exact absurd h (by simp)
    next hstat =>
    split at h
    · exact absurd h (by simp)
    next hinfo =>
    simp only [Except.ok.injEq, Prod.mk.injEq] at h
    obtain ⟨h1, h2⟩ := h
    refine ⟨by rw [← h1], app, happ, ?_⟩
    simpa using hstat
  case resubmit =>
    intro userId applicationId now e app happ hown hstat
    unfold submitApplication
    simp only [happ]
    rw [if_neg (by simp [hown])]
    rw [if_pos (by simp [hstat])]
  case update =>
    intro officerId applicationId st rr now a1 db1 h
    unfold updateApplicationStatus at h
    split at h
    · exact absurd h (by simp)
    split at h
    · exact absurd h (by simp)
    split at h
    · exact absurd h (by simp)
    next app happ =>
    split at h
    · exact absurd h (by simp)
    simp only [Except.ok.injEq, Prod.mk.injEq] at h
    obtain ⟨h1, h2⟩ := h
    exact ⟨app, happ, by rw [← h1]⟩
  case pay =>
    intro sid applicationId db2 h
    unfold handleSuccessfulPayment at h
    split at h
    · exact absurd h (by simp)
    dsimp only at h
    split at h
    · exact absurd h (by simp)
    next app happ =>
    simp only [Except.ok.injEq] at h
    refine ⟨app, happ, ?_, rfl⟩
    rw [← h]
    show (DB.updateApp _ applicationId _).visaApplications.find? _ = _
    unfold DB.updateApp
    have hid0 := List.find?_some happ
    have hid : (fun (a : VisaApplication) => a.id == applicationId)
        ({ app with status := Status.SUBMITTED }) = true := hid0
    exact find?_map_replace (fun a => a.id == applicationId)
      ({ app with status := Status.SUBMITTED }) hid _
      (by rw [show List.find? (fun (a : VisaApplication) => a.id == applicationId) _ = some app from happ]; simp)

/-- The submitted row of the first submission on `c9db` (no officers). -/
def c9app1 : VisaApplication :=
  { c1app with status := Status.SUBMITTED, submissionDate := some 1000, officerId := none }

/-- Witness for C9 (amended): creation leaves `submissionDate` null and
the first submission on the fixture store sets it to the call time. -/
theorem submissionDate_lifecycle_witness :
    c3app.submissionDate = none ∧
    (c9app1.submissionDate = some 1000 ∧
      ∃ app, c9db.visaApplications.find? (fun a => a.id == "apc1") = some app ∧
        app.status = Status.PENDING) :=
  ⟨(submissionDate_lifecycle c3db).1 "ua" "vt" "ap1" "VISA-2025-11111" c3app c3db1 (by decide),
   (submissionDate_lifecycle c9db).2.1 "ua" "apc1" 1000 false c9app1
     ((c9db.updateApp "apc1" c9app1).withAudit "ua" "APPLICATION_SUBMITTED") (by decide)⟩

/-! ## Claim C6: re-upload overwrites in place -/

/-- Number of `Document` rows of a given type on an application. -/
def docTypeCount (db : DB) (applicationId documentType : String) : Nat :=
  (db.documents.filter
    (fun d => d.applicationId == applicationId && d.documentType == documentType)).length

/-- A pointwise predicate-preserving replacement map preserves the
number of rows satisfying the predicate. -/
theorem length_filter_map_eq {α : Type} (p : α → Bool) (f : α → α) :
    ∀ (l : List α), (∀ x ∈ l, p (f x) = p x) →
      ((l.map f).filter p).length = (l.filter p).length := by
  intro l
  induction l with
  | nil => intro _; rfl
  | cons x t ih =>
    intro hx
    simp only [List.map_cons, List.filter_cons]
    rw [hx x (List.mem_cons_self x t)]
    by_cases hpx : p x = true
    · rw [if_pos hpx, if_pos hpx]
      simp only [List.length_cons]
      rw [ih (fun y hy => hx y (List.mem_cons_of_mem x hy))]
    · rw [if_neg hpx, if_neg hpx]
      exact ih (fun y hy => hx y (List.mem_cons_of_mem x hy))

/-- C6: a successful `uploadDocument` of a `documentType` that already
has a row on the application updates that row in place — same id, new
file metadata, `verificationStatus` reset to `PENDING`, verification
fields cleared — creates no second row of the type, and keeps the total
number of rows of that type unchanged (one if it was one). -/
theorem uploadDocument_overwrites
    (db : DB) (userId applicationId : String) (data : DocumentUploadData)
    (freshId : String) (now : Nat) (app : VisaApplication) (ex : Document)
    (hallowed : ALLOWED_DOCUMENT_TYPES.contains data.documentType = true)
    (happ : db.visaApplications.find? (fun a => a.id == applicationId) = some app)
    (hown : app.userId = userId)
    (hex : db.documents.find?
      (fun d => d.applicationId == applicationId && d.documentType == data.documentType) = some ex)
    (hnodup : (db.documents.map (fun d => d.id)).Nodup) :
    ∃ doc1 db1, uploadDocument db userId applicationId data freshId now = Except.ok (doc1, db1) ∧
      doc1.id = ex.id ∧
      doc1.fileName = data.fileName ∧ doc1.filePath = data.filePath ∧
      doc1.fileSize = data.fileSize ∧
      doc1.verificationStatus = VerificationStatus.PENDING ∧
      doc1.verifiedBy = none ∧ doc1.verifiedAt = none ∧ doc1.rejectionReason = none ∧
      db1.documents.length = db.documents.length ∧
      docTypeCount db1 applicationId data.documentType =
        docTypeCount db applicationId data.documentType ∧
      (docTypeCount db applicationId data.documentType = 1 →
        docTypeCount db1 applicationId data.documentType = 1) := by
  have hpex := List.find?_some hex
  have hmem := List.mem_of_find?_eq_some hex
  have hpoint : ∀ x ∈ db.documents,
      (fun (d : Document) => d.applicationId == applicationId && d.documentType == data.documentType)
        (if x.id == ex.id then
          { ex with
            fileName := data.fileName
            filePath := data.filePath
            fileSize := data.fileSize
            verificationStatus := VerificationStatus.PENDING
            verifiedBy := none
            verifiedAt := none
            rejectionReason := none
            uploadDate := now }
         else x) =
      (fun (d : Document) => d.applicationId == applicationId && d.documentType == data.documentType) x := by
    intro x hx
    by_cases hxid : (x.id == ex.id) = true
    · have hxe : x = ex :=
        List.inj_on_of_nodup_map hnodup hx hmem (by simpa using hxid)
      rw [if_pos hxid, hxe]
    · rw [if_neg hxid]
  have hcount := length_filter_map_eq
    (fun (d : Document) => d.applicationId == applicationId && d.documentType == data.documentType)
    (fun x => if x.id == ex.id then
      { ex with
        fileName := data.fileName
        filePath := data.filePath
        fileSize := data.fileSize
        verificationStatus := VerificationStatus.PENDING
        verifiedBy := none
        verifiedAt := none
        rejectionReason := none
        uploadDate := now }
      else x)
    db.documents hpoint
  unfold uploadDocument
  simp only [hallowed, Bool.not_true]
  rw [if_neg (by simp)]
  simp only [happ]
  rw [if_neg (by simp [hown])]
  simp only [hex]
  refine ⟨_, _, rfl, rfl, rfl, rfl, rfl, rfl, rfl, rfl, rfl, ?_, ?_, ?_⟩
  · show (db.documents.map _).length = db.documents.length
    exact List.length_map _ _
  · exact hcount
  · intro h
    exact hcount.trans h

/-- Fixture: Alice's application for the document claims. -/
def c6app : VisaApplication :=
  { id := "apc6", applicationNumber := "VISA-2025-00006", userId := "ua", visaTypeId := "vt",
    status := Status.SUBMITTED, submissionDate := some 5, decisionDate := none,
    expiryDate := none, rejectionReason := none, officerId := none,
    personalInfo := some "pi", travelInfo := some "ti" }

/-- Fixture: an already verified passport copy on `c6app`. -/
def c6doc : Document :=
  { id := "d1", applicationId := "apc6", documentType := "passportCopy",
    fileName := "old.pdf", filePath := "/f/old.pdf", fileSize := 11, uploadDate := 4,
    verificationStatus := VerificationStatus.VERIFIED, verifiedBy := some "uo1",
    verifiedAt := some 6, rejectionReason := none }

/-- Fixture: store for the re-upload claim. -/
def c6db : DB :=
  { users := [userAlice], visaTypes := [visaT], visaApplications := [c6app],
    documents := [c6doc], requestsForDocument := [], interviews := [], payments := [],
    auditLogs := [] }

/-- Fixture: the re-uploaded passport copy payload. -/
def c6data : DocumentUploadData :=
  { documentType := "passportCopy", fileName := "new.pdf", filePath := "/f/new.pdf",
    fileSize := 22 }

/-- Witness for C6: the overwrite theorem applied at the fixture store. -/
theorem uploadDocument_overwrites_witness :
    ∃ doc1 db1, uploadDocument c6db "ua" "apc6" c6data "dX" 9 = Except.ok (doc1, db1) ∧
      doc1.id = c6doc.id ∧
      doc1.fileName = c6data.fileName ∧ doc1.filePath = c6data.filePath ∧
      doc1.fileSize = c6data.fileSize ∧
      doc1.verificationStatus = VerificationStatus.PENDING ∧
      doc1.verifiedBy = none ∧ doc1.verifiedAt = none ∧ doc1.rejectionReason = none ∧
      db1.documents.length = c6db.documents.length ∧
      docTypeCount db1 "apc6" c6data.documentType =
        docTypeCount c6db "apc6" c6data.documentType ∧
      (docTypeCount c6db "apc6" c6data.documentType = 1 →
        docTypeCount db1 "apc6" c6data.documentType = 1) :=
  uploadDocument_overwrites c6db "ua" "apc6" c6data "dX" 9 c6app c6doc
    (by decide) (by decide) (by decide) (by decide) (by decide)

/-! ## Claim C4: effects of submitDocumentForRequest -/

/-- Searching after a pointwise adjustment of every matching row by a
predicate-preserving `g` finds the adjusted first match. -/
theorem find?_map_adjust {α : Type} (p : α → Bool) (g : α → α)
    (hg : ∀ x, p (g x) = p x) :
    ∀ (l : List α) (a : α), l.find? p = some a →
      (l.map (fun x => if p x then g x else x)).find? p = some (g a) := by
  intro l
  induction l with
  | nil => intro a h; simp at h
  | cons x t ih =>
    intro a h
    by_cases hx : p x = true
    · rw [List.find?_cons_of_pos _ hx] at h
      cases h
      simp only [List.map_cons]
      rw [if_pos hx]
      exact List.find?_cons_of_pos _ (by rw [hg]; exact hx)
    · rw [List.find?_cons_of_neg _ (by simp [hx])] at h
      simp only [List.map_cons]
      rw [if_neg hx]
      rw [List.find?_cons_of_neg _ hx]
      exact ih a h

/-- Fixture: a `SENT` document request on Alice's application `apc6`. -/
def c4req : RequestForDocument :=
  { id := "req4", applicationId := "apc6", documentName := "Proof of funds",
    additionalDetails := none, officerId := "uo1", status := ReqDocStatus.SENT,
    documentId := none }

/-- Fixture: the payload Alice submits against `req4`. -/
def c4data : DocumentUploadData :=
  { documentType := "bankStatement", fileName := "bs.pdf", filePath := "/f/bs.pdf",
    fileSize := 33 }

/-- Fixture: store for the document-request claims. -/
def c4db : DB :=
  { users := [userAlice], visaTypes := [visaT], visaApplications := [c6app],
    documents := [c6doc], requestsForDocument := [c4req], interviews := [],
    payments := [], auditLogs := [] }

/-- C4 counterexample: on a `SENT` request the success path is three
sequential writes with no transaction; after only the first write (the
`Document` insert) has persisted, the new row exists while the request
is still `SENT` — the two effects are not atomic. -/
theorem submitDocumentForRequest_not_atomic :
    ((submitDocumentForRequestWrites c4db "ua" "req4" c4data "dNew" 70).toOption.map
      (fun ws =>
        (ws.length,
         (applyWrites c4db (ws.take 1)).documents.any (fun d => d.id == "dNew"),
         ((applyWrites c4db (ws.take 1)).requestsForDocument.find?
           (fun r => r.id == "req4")).map (fun r => r.status)))) =
      some (3, true, some ReqDocStatus.SENT) := by decide

/-- C4 (amended): on a `CANCELLED` or already-`SUBMITTED` request the
call fails with `BadRequest` before any write, leaving the store
unchanged; on a `SENT` request owned by the caller it succeeds, and once
all of its writes are applied the new `Document` row exists and the
request is `SUBMITTED` with `documentId` linking the new row.  The two
effects are, however, separate sequential writes (document first), not
one atomic unit. -/
theorem submitDocumentForRequest_amended
    (db : DB) (userId requestId : String) (documentData : DocumentUploadData)
    (freshDocId : String) (now : Nat) (usr : User) (request : RequestForDocument)
    (application : VisaApplication)
    (huser : db.users.find? (fun u => u.id == userId) = some usr)
    (hreq : db.requestsForDocument.find? (fun r => r.id == requestId) = some request)
    (happ : db.visaApplications.find? (fun a => a.id == request.applicationId) = some application)
    (hown : application.userId = userId) :
    (request.status = ReqDocStatus.CANCELLED →
      submitDocumentForRequest db userId requestId documentData freshDocId now =
        Except.error (ServiceError.BadRequest "Cannot submit document for a cancelled request")) ∧
    (request.status = ReqDocStatus.SUBMITTED →
      submitDocumentForRequest db userId requestId documentData freshDocId now =
        Except.error (ServiceError.BadRequest "Document has already been submitted for this request")) ∧
    (request.status = ReqDocStatus.SENT →
      ∃ db2, submitDocumentForRequest db userId requestId documentData freshDocId now =
          Except.ok db2 ∧
        db2.documents = db.documents ++
          [{ id := freshDocId
             applicationId := request.applicationId
             documentType := documentData.documentType
             fileName := documentData.fileName
             filePath := documentData.filePath
             fileSize := documentData.fileSize
             uploadDate := now
             verificationStatus := VerificationStatus.PENDING
             verifiedBy := none
             verifiedAt := none
             rejectionReason := none }] ∧
        db2.requestsForDocument.find? (fun r => r.id == requestId) =
          some { request with status := ReqDocStatus.SUBMITTED, documentId := some freshDocId }) := by
  refine ⟨?cancelled, ?submitted, ?sent⟩
  case cancelled =>
    intro hc
    unfold submitDocumentForRequest submitDocumentForRequestWrites
    simp only [huser, hreq, happ]
    rw [if_neg (by simp [hown])]
    rw [if_pos (by simp [hc])]
    rfl
  case submitted =>
    intro hc
    unfold submitDocumentForRequest submitDocumentForRequestWrites
    simp only [huser, hreq, happ]
    rw [if_neg (by simp [hown])]
    rw [if_neg (by simp [hc])]
    rw [if_pos (by simp [hc])]
    rfl
  case sent =>
    intro hs
    unfold submitDocumentForRequest submitDocumentForRequestWrites
    simp only [huser, hreq, happ]
    rw [if_neg (by simp [hown])]
    rw [if_neg (by simp [hs])]
    rw [if_neg (by simp [hs])]
    refine ⟨_, rfl, rfl, ?_⟩
    show (db.requestsForDocument.map _).find? _ = _
    have hgp : ∀ (x : RequestForDocument),
        (fun (r : RequestForDocument) => r.id == requestId)
          ({ x with status := ReqDocStatus.SUBMITTED, documentId := some freshDocId }) =
        (fun (r : RequestForDocument) => r.id == requestId) x := fun x => rfl
    exact find?_map_adjust (fun r => r.id == requestId)
      (fun x => { x with status := ReqDocStatus.SUBMITTED, documentId := some freshDocId })
      hgp db.requestsForDocument request hreq

/-- Witness for C4 (amended): the theorem applied at the fixture store. -/
theorem submitDocumentForRequest_amended_witness :
    (c4req.status = ReqDocStatus.CANCELLED →
      submitDocumentForRequest c4db "ua" "req4" c4data "dNew" 70 =
        Except.error (ServiceError.BadRequest "Cannot submit document for a cancelled request")) ∧
    (c4req.status = ReqDocStatus.SUBMITTED →
      submitDocumentForRequest c4db "ua" "req4" c4data "dNew" 70 =
        Except.error (ServiceError.BadRequest "Document has already been submitted for this request")) ∧
    (c4req.status = ReqDocStatus.SENT →
      ∃ db2, submitDocumentForRequest c4db "ua" "req4" c4data "dNew" 70 = Except.ok db2 ∧
        db2.documents = c4db.documents ++
          [{ id := "dNew"
             applicationId := c4req.applicationId
             documentType := c4data.documentType
             fileName := c4data.fileName
             filePath := c4data.filePath
             fileSize := c4data.fileSize
             uploadDate := 70
             verificationStatus := VerificationStatus.PENDING
             verifiedBy := none
             verifiedAt := none
             rejectionReason := none }] ∧
        db2.requestsForDocument.find? (fun r => r.id == "req4") =
          some { c4req with status := ReqDocStatus.SUBMITTED, documentId := some "dNew" }) :=
  submitDocumentForRequest_amended c4db "ua" "req4" c4data "dNew" 70 userAlice c4req c6app
    (by decide) (by decide) (by decide) (by decide)

/-! ## Claim C10: no allow-list on the request-submission path -/

/-- Fixture: a second `SENT` request on `apc6`, used for the duplicate
`documentType` scenario. -/
def c10reqB : RequestForDocument :=
  { id := "rq10b", applicationId := "apc6", documentName := "Passport again",
    additionalDetails := none, officerId := "uo1", status := ReqDocStatus.SENT,
    documentId := none }

/-- Fixture: store with one `passportCopy` document and two `SENT`
requests on `apc6`. -/
def c10db : DB :=
  { users := [userAlice], visaTypes := [visaT], visaApplications := [c6app],
    documents := [c6doc], requestsForDocument := [c4req, c10reqB], interviews := [],
    payments := [], auditLogs := [] }

/-- Fixture: a payload whose type is outside the 13-entry allow-list. -/
def c10dataUnlisted : DocumentUploadData :=
  { documentType := "utilityBill", fileName := "u.pdf", filePath := "/f/u.pdf", fileSize := 5 }

/-- Fixture: a payload duplicating the existing `passportCopy` type. -/
def c10dataDup : DocumentUploadData :=
  { documentType := "passportCopy", fileName := "p2.pdf", filePath := "/f/p2.pdf", fileSize := 6 }

/-- C10: `submitDocumentForRequest` performs no allow-list check:
`utilityBill` is a non-empty string outside the 13-entry allow-list that
`uploadDocument` rejects, yet submitting it against a `SENT` request
succeeds and inserts a `Document` row of that type; and submitting a
`passportCopy` payload — a type that already has a row on the
application — succeeds and leaves two `passportCopy` rows. -/
theorem submitDocumentForRequest_no_allowlist :
    (ALLOWED_DOCUMENT_TYPES.contains "utilityBill" = false ∧ "utilityBill" ≠ "") ∧
    uploadDocument c10db "ua" "apc6" c10dataUnlisted "dz" 9 =
      Except.error (ServiceError.BadRequest "Invalid document type") ∧
    ((submitDocumentForRequest c10db "ua" "req4" c10dataUnlisted "dU" 80).toOption.map
      (fun db2 => docTypeCount db2 "apc6" "utilityBill") = some 1) ∧
    ((submitDocumentForRequest c10db "ua" "rq10b" c10dataDup "dP" 81).toOption.map
      (fun db2 => docTypeCount db2 "apc6" "passportCopy") = some 2) := by decide

/-! ## Claim C8: at most one active interview per application -/

/-- The invariant: no two distinct interviews in `{SCHEDULED,
RESCHEDULED}` belong to the same application. -/
def atMostOneActive (db : DB) : Prop :=
  (db.interviews.filter interviewActive).Pairwise (fun i j => i.applicationId ≠ j.applicationId)

instance atMostOneActiveDec (db : DB) : Decidable (atMostOneActive db) := by
  unfold atMostOneActive
  infer_instance

/-- Fixture: Alice's application used by the interview claims. -/
def c8app : VisaApplication :=
  { id := "apc8", applicationNumber := "VISA-2025-00008", userId := "ua", visaTypeId := "vt",
    status := Status.SUBMITTED, submissionDate := some 5, decisionDate := none,
    expiryDate := none, rejectionReason := none, officerId := some "uo1",
    personalInfo := some "pi", travelInfo := some "ti" }

/-- Fixture: store for the interview claims, with no interviews yet. -/
def c8db : DB :=
  { users := [userAlice, officerOmar], visaTypes := [visaT], visaApplications := [c8app],
    documents := [], requestsForDocument := [], interviews := [], payments := [],
    auditLogs := [] }

/-- C8 counterexample: schedule an interview, cancel it, schedule a
second one, then reschedule the cancelled one — `rescheduleInterview`
has no status guard, so the cancelled interview comes back as
`RESCHEDULED` and the application ends with two interviews in
`{SCHEDULED, RESCHEDULED}`. -/
theorem interview_invariant_broken_by_reschedule :
    ((createInterview c8db "uo1" "apc8" "uo1" 100 "Kigali" none "iv1").toOption.bind (fun r1 =>
      (cancelInterview r1.2 "uo1" "iv1").toOption.bind (fun r2 =>
        (createInterview r2.2 "uo1" "apc8" "uo1" 200 "Kigali" none "iv2").toOption.bind (fun r3 =>
          (rescheduleInterview r3.2 "uo1" "iv1" none none none).toOption.map (fun r4 =>
            (r4.2.interviews.filter
              (fun i => i.applicationId == "apc8" && interviewActive i)).length))))) =
      some 2 := by decide

/-- Filtering the active interviews after a pointwise adjustment that
keeps application ids and never activates an inactive row preserves the
pairwise-distinct-applications property. -/
theorem pairwise_filter_map_preserve (f : Interview → Interview) :
    ∀ (l : List Interview),
      (∀ x ∈ l, (f x).applicationId = x.applicationId ∧
        (interviewActive (f x) = true → interviewActive x = true)) →
      (l.filter interviewActive).Pairwise (fun i j => i.applicationId ≠ j.applicationId) →
      ((l.map f).filter interviewActive).Pairwise (fun i j => i.applicationId ≠ j.applicationId) := by
  intro l
  induction l with
  | nil => intro _ _; simp
  | cons x t ih =>
    intro hf h
    have hfx := hf x (List.mem_cons_self x t)
    have hft := fun y hy => hf y (List.mem_cons_of_mem x hy)
    simp only [List.map_cons, List.filter_cons] at h ⊢
    by_cases hafx : interviewActive (f x) = true
    · have hax : interviewActive x = true := hfx.2 hafx
      rw [hax] at h
      rw [if_pos rfl] at h
      obtain ⟨hxall, ht⟩ := List.pairwise_cons.mp h
      rw [hafx]
      rw [if_pos rfl]
      refine List.pairwise_cons.mpr ⟨?_, ih hft ht⟩
      intro z hz
      have hz1 : z ∈ List.map f t := (List.mem_filter.mp hz).1
      obtain ⟨y, hy, hzy⟩ := List.mem_map.mp hz1
      have hzact : interviewActive z = true := (List.mem_filter.mp hz).2
      have hyact : interviewActive y = true := by
        apply (hft y hy).2
        rw [hzy]
        exact hzact
      have hymem : y ∈ t.filter interviewActive := List.mem_filter.mpr ⟨hy, hyact⟩
      have hneq := hxall y hymem
      rw [hfx.1]
      rw [← hzy]
      rw [(hft y hy).1]
      exact hneq
    · rw [eq_false_of_ne_true hafx]
      rw [if_neg (by simp)]
      by_cases hax : interviewActive x = true
      · rw [hax] at h
        rw [if_pos rfl] at h
        exact ih hft (List.pairwise_cons.mp h).2
      · rw [eq_false_of_ne_true hax] at h
        rw [if_neg (by simp)] at h
        exact ih hft h

/-- A single-row interview update preserves the invariant when the new
row keeps the old row's application and is only active if the old row
was. -/
theorem updateInterview_preserves
    (db : DB) (iid : String) (iv1 found : Interview)
    (hfind : db.interviews.find? (fun x => x.id == iid) = some found)
    (hnodup : (db.interviews.map (fun i => i.id)).Nodup)
    (happid : iv1.applicationId = found.applicationId)
    (hact : interviewActive iv1 = true → interviewActive found = true)
    (hinv : atMostOneActive db) :
    atMostOneActive (db.updateInterview iid iv1) := by
  unfold atMostOneActive DB.updateInterview
  apply pairwise_filter_map_preserve _ _ _ hinv
  intro x hx
  by_cases hxid : (x.id == iid) = true
  · have hxe : x = found := by
      apply List.inj_on_of_nodup_map hnodup hx (List.mem_of_find?_eq_some hfind)
      have h1 : x.id = iid := by simpa using hxid
      have h2 : found.id = iid := by simpa using List.find?_some hfind
      rw [h1, h2]
    rw [if_pos hxid, hxe]
    exact ⟨happid, hact⟩
  · rw [if_neg hxid]
    exact ⟨rfl, fun h => h⟩

/-- C8 (amended): the one-active-interview-per-application invariant is
checked at creation and preserved by `createInterview`,
`cancelInterview`, `confirmInterview` and `markInterviewCompleted`, and
by `rescheduleInterview` when the target interview is still in
`{SCHEDULED, RESCHEDULED}`; rescheduling a `CANCELLED` or `COMPLETED`
interview is not guarded and can break the invariant. -/
theorem interview_invariant_amended (db : DB) (hinv : atMostOneActive db) :
    (∀ s a o d l n f iv db1,
      createInterview db s a o d l n f = Except.ok (iv, db1) → atMostOneActive db1) ∧
    ((db.interviews.map (fun i => i.id)).Nodup →
      (∀ o i iv db1, cancelInterview db o i = Except.ok (iv, db1) → atMostOneActive db1) ∧
      (∀ u i now iv db1, confirmInterview db u i now = Except.ok (iv, db1) → atMostOneActive db1) ∧
      (∀ o i oc n iv db1,
        markInterviewCompleted db o i oc n = Except.ok (iv, db1) → atMostOneActive db1) ∧
      (∀ o i nd nl nn iv db1 target,
        db.interviews.find? (fun x => x.id == i) = some target →
        interviewActive target = true →
        rescheduleInterview db o i nd nl nn = Except.ok (iv, db1) → atMostOneActive db1)) := by
  constructor
  · intro s a o d l n f iv db1 h
    unfold createInterview at h
    split at h
    · exact absurd h (by simp)
    split at h
    · exact absurd h (by simp)
    split at h
    · exact absurd h (by simp)
    split at h
    · exact absurd h (by simp)
    split at h
    · exact absurd h (by simp)
    split at h
    next hfound => exact absurd h (by simp)
    next hnone =>
    simp only [Except.ok.injEq, Prod.mk.injEq] at h
    obtain ⟨h1, h2⟩ := h
    rw [← h2]
    unfold atMostOneActive
    show ((db.interviews ++ [_]).filter interviewActive).Pairwise _
    rw [List.filter_append]
    apply List.pairwise_append.mpr
    refine ⟨hinv, (List.pairwise_singleton _ _).filter _, ?_⟩
    intro x hx y hy
    have hxl := List.mem_filter.mp hx
    have hxnot := List.find?_eq_none.mp hnone x hxl.1
    have hy2 := List.mem_of_mem_filter hy
    simp only [List.mem_singleton] at hy2
    subst hy2
    intro hcontra
    apply hxnot
    simp only [Bool.and_eq_true, beq_iff_eq]
    exact ⟨hcontra, hxl.2⟩
  · intro hnodup
    refine ⟨?cancel, ?confirm, ?complete, ?resched⟩
    case cancel =>
      intro o i iv db1 h
      unfold cancelInterview at h
      split at h
      · exact absurd h (by simp)
      split at h
      · exact absurd h (by simp)
      split at h
      · exact absurd h (by simp)
      next interview hfind =>
      split at h
      · exact absurd h (by simp)
      split at h
      · exact absurd h (by simp)
      simp only [Except.ok.injEq, Prod.mk.injEq] at h
      obtain ⟨h1, h2⟩ := h
      rw [← h2]
      exact updateInterview_preserves db i _ interview hfind hnodup rfl
        (by intro hc; exact absurd hc (by simp [interviewActive])) hinv
    case confirm =>
      intro u i now iv db1 h
      unfold confirmInterview at h
      split at h
      · exact absurd h (by simp)
      split at h
      · exact absurd h (by simp)
      next interview hfind =>
      split at h
      · exact absurd h (by simp)
      split at h
      · exact absurd h (by simp)
      split at h
      · exact absurd h (by simp)
      split at h
      · exact absurd h (by simp)
      simp only [Except.ok.injEq, Prod.mk.injEq] at h
      obtain ⟨h1, h2⟩ := h
      rw [← h2]
      exact updateInterview_preserves db i _ interview hfind hnodup rfl
        (fun hc => hc) hinv
    case complete =>
      intro o i oc n iv db1 h
      unfold markInterviewCompleted at h
      split at h
      · exact absurd h (by simp)
      split at h
      · exact absurd h (by simp)
      split at h
      · exact absurd h (by simp)
      next interview hfind =>
      split at h
      · exact absurd h (by simp)
      split at h
      · exact absurd h (by simp)
      split at h
      · exact absurd h (by simp)
      simp only [Except.ok.injEq, Prod.mk.injEq] at h
      obtain ⟨h1, h2⟩ := h
      rw [← h2]
      exact updateInterview_preserves db i _ interview hfind hnodup rfl
        (by intro hc; exact absurd hc (by simp [interviewActive])) hinv
    case resched =>
      intro o i nd nl nn iv db1 target htarget hactive h
      unfold rescheduleInterview at h
      split at h
      · exact absurd h (by simp)
      split at h
      · exact absurd h (by simp)
      split at h
      · exact absurd h (by simp)
      next interview hfind =>
      split at h
      · exact absurd h (by simp)
      simp only [Except.ok.injEq, Prod.mk.injEq] at h
      obtain ⟨h1, h2⟩ := h
      rw [← h2]
      have hsame : interview = target := by
        rw [hfind] at htarget
        exact (Option.some.injEq _ _ ▸ htarget)
      exact updateInterview_preserves db i _ interview hfind hnodup rfl
        (fun _ => by rw [hsame]; exact hactive) hinv

/-- The interview `createInterview` inserts in the witness scenario. -/
def c8wIv : Interview :=
  { id := "iv1", applicationId := "apc8", assignedOfficerId := "uo1", schedulerId := "uo1",
    scheduledDate := 100, location := "Kigali", status := InterviewStatus.SCHEDULED,
    notes := none, outcome := none, confirmed := false, confirmedAt := none }

/-- The store after that insertion. -/
def c8wDb1 : DB := { c8db with interviews := [c8wIv] }

/-- Witness for C8 (amended): the create clause applied at the fixture
store preserves the invariant. -/
theorem interview_invariant_amended_witness : atMostOneActive c8wDb1 :=
  (interview_invariant_amended c8db (by decide)).1 "uo1" "apc8" "uo1" 100 "Kigali" none "iv1"
    c8wIv c8wDb1 (by decide)

end IngomaVisa
